import Mathlib

/-!
Shallow embedding of `src/stock_mcp_server.py` (a stock-analysis MCP server
exposing three tools and one static resource).

Modelling conventions:
* Python floats are idealised as `ℚ` where the code only does rounding and
  formatting (closing prices, volumes), and as `ℝ` where the code takes
  logarithms and square roots (the volatility computation on lines 87-88).
* A pandas DataFrame of daily price rows is a `List PriceBar`, ordered as the
  provider returns it (ascending date).
* The external provider (`yf.Ticker(...).history(...)`, a library call that can
  raise or return an empty frame) is an oracle parameter of type
  `... → Except PyExc (List PriceBar)`; `Except.error` models a raised
  exception, `Except.ok []` models an empty DataFrame.
* `datetime.strptime(s, "%Y-%m-%d")` is stdlib code outside src/; it is
  modelled by `parseDate` for zero-padded `YYYY-MM-DD` inputs (CPython also
  accepts unpadded month/day, which no claim depends on).
* Python's `round(x, n)` is round-half-even of the decimal value; the
  subsequent f-string rendering of the float is the shortest decimal form,
  which for a value rounded to `n` places is its decimal expansion with
  trailing zeros stripped but at least one fractional digit kept
  (`100.5 → "100.5"`, `100.0 → "100.0"`, `100.05 → "100.05"`).
-/

/-- One daily row of the provider's DataFrame: the date-time index plus the
close and volume columns used by the server (open/high/low are never read). -/
structure PriceBar where
  year : ℕ
  month : ℕ
  day : ℕ
  hour : ℕ
  minute : ℕ
  second : ℕ
  close : ℚ
  volume : ℕ
deriving DecidableEq

instance : Inhabited PriceBar := ⟨⟨0, 0, 0, 0, 0, 0, 0, 0⟩⟩

/-- A parsed calendar date, the result of `datetime.strptime(s, "%Y-%m-%d")`. -/
structure CalDate where
  year : ℕ
  month : ℕ
  day : ℕ
deriving DecidableEq

/-- A raised Python exception, reduced to its message `str(e)`. -/
structure PyExc where
  msg : String
deriving DecidableEq

/-- Convenience constructor for test data: a bar at midnight. -/
def mkBar (y m d : ℕ) (c : ℚ) (v : ℕ) : PriceBar := ⟨y, m, d, 0, 0, 0, c, v⟩

/-- Value of a decimal digit character. -/
def digitVal (c : Char) : ℕ := c.toNat - '0'.toNat

/-- Gregorian leap-year rule, as used by `datetime`. -/
def isLeapYear (y : ℕ) : Bool := (y % 4 == 0) && (y % 100 != 0 || y % 400 == 0)

/-- Number of days in a month, as validated by the `datetime` constructor. -/
def daysInMonth (y m : ℕ) : ℕ :=
  if m = 2 then (if isLeapYear y then 29 else 28)
  else if m = 4 || m = 6 || m = 9 || m = 11 then 30
  else 31

/-- Modelled from the spec: `datetime.strptime(s, "%Y-%m-%d")` (Python stdlib,
not part of src/). Accepts a zero-padded `YYYY-MM-DD` string whose fields form
a real calendar date; raises `ValueError` otherwise, which we model as
`Except.error` carrying the exception message. -/
def parseDate (s : String) : Except PyExc CalDate :=
  let fmtErr : Except PyExc CalDate :=
    Except.error ⟨"time data " ++ s ++ " does not match format %Y-%m-%d"⟩
  match s.data with
  | [y1, y2, y3, y4, c1, m1, m2, c2, d1, d2] =>
    if y1.isDigit && y2.isDigit && y3.isDigit && y4.isDigit &&
        (c1 == '-') && m1.isDigit && m2.isDigit && (c2 == '-') &&
        d1.isDigit && d2.isDigit then
      let y := ((digitVal y1 * 10 + digitVal y2) * 10 + digitVal y3) * 10 + digitVal y4
      let m := digitVal m1 * 10 + digitVal m2
      let d := digitVal d1 * 10 + digitVal d2
      if m < 1 || 12 < m || d < 1 || 31 < d then fmtErr
      else if y = 0 then Except.error ⟨"year 0 is out of range"⟩
      else if daysInMonth y m < d then Except.error ⟨"day is out of range for month"⟩
      else Except.ok ⟨y, m, d⟩
    else fmtErr
  | _ => fmtErr

/-- Resolution of the optional `end_date` argument on line 53:
`datetime.strptime(end_date, "%Y-%m-%d") if end_date else datetime.now()`.
Python truthiness makes both `None` and the empty string fall back to now. -/
def endResolve (end_date : Option String) (now : CalDate) : Except PyExc CalDate :=
  match end_date with
  | none => Except.ok now
  | some s => if s = "" then Except.ok now else parseDate s

/-- Left-pad the decimal digits of `n` with zeros to width `w`. -/
def padZeros (w n : ℕ) : String :=
  String.mk (List.replicate (w - (Nat.repr n).length) '0') ++ Nat.repr n

/-- Python's `round(q, k)` where `scale = 10^k`, returned as the rounded value
times `scale`: round-half-even of `q * scale`, computed exactly on the
numerator and denominator. -/
def roundToScaled (scale : ℕ) (q : ℚ) : ℤ :=
  let n := q.num * (scale : ℤ)
  let d := (q.den : ℤ)
  let f := Int.fdiv n d
  let rem := n - f * d
  if 2 * rem < d then f
  else if d < 2 * rem then f + 1
  else if f % 2 = 0 then f else f + 1

/-- Strip trailing zero digits of a fractional part, keeping at least one
digit, exactly as Python's shortest-form float rendering does. -/
def stripTrailZeros (s : String) : String :=
  let l := (s.data.reverse.dropWhile (fun c => c == '0')).reverse
  if l = [] then "0" else String.mk l

/-- Fractional digits of `m / scale` as rendered by `str()` on a float that is
an exact multiple of `1 / scale` (`width` = number of digits of `scale`). -/
def fracRender (scale width m : ℕ) : String :=
  stripTrailZeros (padZeros width (m % scale))

/-- Python `str()` of the nonnegative float `m / scale`. -/
def decRenderNat (scale width m : ℕ) : String :=
  Nat.repr (m / scale) ++ "." ++ fracRender scale width m

/-- Python `str()` of the float `n / scale` (signed). -/
def decRender (scale width : ℕ) (n : ℤ) : String :=
  if n < 0 then "-" ++ decRenderNat scale width n.natAbs
  else decRenderNat scale width n.toNat

/-- Rendering of `round(q, 2)` inside an f-string, e.g. line 59's
`${round(row['Close'], 2)}` and line 92's `${round(sma, 2)}`. -/
def renderRound2 (q : ℚ) : String := decRender 100 2 (roundToScaled 100 q)

/-- Rendering of line 92's `${round(sma, 2)}` when `sma` may be the NaN that
`rolling(window=20).mean()` yields on a series shorter than the window:
`round(nan, 2)` is NaN and the f-string prints it as `nan`. -/
def renderOptRound2 (sma : Option ℚ) : String :=
  match sma with
  | none => "nan"
  | some q => renderRound2 q

/-- Thousands-separator formatting `{volume:,}` (fuel-based structural
recursion; `fuel = n` always suffices since the argument shrinks by 1000). -/
def commaSepAux (fuel n : ℕ) : String :=
  match fuel with
  | 0 => Nat.repr n
  | fuel + 1 =>
    if n < 1000 then Nat.repr n
    else commaSepAux fuel (n / 1000) ++ "," ++ padZeros 3 (n % 1000)

/-- Python's `{volume:,}` format: decimal digits grouped by commas. -/
def commaSep (n : ℕ) : String := commaSepAux n n

/-- `index.strftime("%Y-%m-%d")` for a row's timestamp. -/
def dateStr (b : PriceBar) : String :=
  padZeros 4 b.year ++ "-" ++ padZeros 2 b.month ++ "-" ++ padZeros 2 b.day

/-- `index.strftime("%Y-%m-%d %H:%M:%S")` for a row's timestamp. -/
def tsStr (b : PriceBar) : String :=
  dateStr b ++ " " ++ padZeros 2 b.hour ++ ":" ++ padZeros 2 b.minute ++ ":" ++
    padZeros 2 b.second

/-- One line of the historical listing, line 59:
`f"Date: {index.strftime('%Y-%m-%d')}, Close: ${round(row['Close'], 2)}"`. -/
def rowRender (b : PriceBar) : String :=
  "Date: " ++ dateStr b ++ ", Close: $" ++ renderRound2 b.close

/-- `data.index[-1]` / `.iloc[-1]`: the last row. Only ever applied after the
`data.empty` guard, so the default is never observed. -/
def ilocLast (data : List PriceBar) : PriceBar := data.getLastD default

/-- Substring test (used to state facts about rendered output). -/
def containsStr (s pat : String) : Bool := decide (pat.data <:+: s.data)

/-- A string that occupies a single line. -/
def noNewline (s : String) : Prop := '\n' ∉ s.data

instance (s : String) : Decidable (noNewline s) := by
  unfold noNewline
  infer_instance

/-- Strict date-time order on two bars (dates only; all test data is daily). -/
def dateLtB (a b : PriceBar) : Bool :=
  decide (a.year < b.year) ||
    (decide (a.year = b.year) &&
      (decide (a.month < b.month) ||
        (decide (a.month = b.month) && decide (a.day < b.day))))

/-- The rows are in strictly ascending date order (the order yfinance returns
and a DataFrame index keeps). -/
def sortedByDate : List PriceBar → Bool
  | [] => true
  | [_] => true
  | a :: b :: t => dateLtB a b && sortedByDate (b :: t)

/-- Arithmetic mean of a list of rationals (spec-side definition of "the
arithmetic mean of the closing prices"). -/
def listMean (xs : List ℚ) : ℚ := xs.sum / xs.length

/-- The last `k` elements of a list (spec-side: "the last `k` closes"). -/
def lastN (k : ℕ) (xs : List ℚ) : List ℚ := xs.drop (xs.length - k)

/-- Entry `i` of `Series.rolling(window=w).mean()`: the mean of the `w`
observations ending at `i`, or NaN (`none`) when fewer than `w` exist
(pandas' default `min_periods = window`). -/
def rollingMeanAt (w : ℕ) (xs : List ℚ) (i : ℕ) : Option ℚ :=
  if w ≤ i + 1 then some (listMean ((xs.take (i + 1)).drop (i + 1 - w)))
  else none

/-- The full series `Series.rolling(window=w).mean()`. -/
def rollingMeanSeries (w : ℕ) (xs : List ℚ) : List (Option ℚ) :=
  (List.range xs.length).map (rollingMeanAt w xs)

/-- Line 86: `sma = data['Close'].rolling(window=20).mean().iloc[-1]`.
`none` is the NaN that pandas puts at positions with fewer than 20 points. -/
def metricsSma (data : List PriceBar) : Option ℚ :=
  (rollingMeanSeries 20 (data.map PriceBar.close)).getLastD none

/-- The Close column as real numbers, for the log/sqrt computation. -/
noncomputable def closesR (data : List PriceBar) : List ℝ :=
  data.map (fun b => ((b.close : ℚ) : ℝ))

/-- Tail of line 87's series: log-ratios of each close to its predecessor. -/
noncomputable def pairLogs : ℝ → List ℝ → List (Option ℝ)
  | _, [] => []
  | prev, x :: xs => some (Real.log (x / prev)) :: pairLogs x xs

/-- Line 87: `log_returns = np.log(data['Close'] / data['Close'].shift(1))`,
a series of the same length as the input whose first entry is the NaN
introduced by `shift(1)` (modelled as `none`). -/
noncomputable def logReturnsPy : List ℝ → List (Option ℝ)
  | [] => []
  | c :: cs => none :: pairLogs c cs

/-- Mean of a list of reals. -/
noncomputable def meanR (xs : List ℝ) : ℝ := xs.sum / xs.length

/-- Population standard deviation (divisor `n`), as numpy and
`Series.std(ddof=0)` compute it. -/
noncomputable def popStd (xs : List ℝ) : ℝ :=
  Real.sqrt (((xs.map (fun x => (x - meanR xs) ^ 2)).sum) / xs.length)

/-- Line 88's `np.std(log_returns)`: numpy's `std` dispatches to the pandas
method `Series.std(ddof=0)` when handed a Series, and pandas skips NaN
(`skipna=True` default), so this is the population standard deviation of the
non-NaN entries. -/
noncomputable def npStdSkipNa (xs : List (Option ℝ)) : ℝ :=
  popStd (xs.filterMap id)

/-- Lines 87-88: the annualized volatility value computed by
`calculate_metrics`: `np.std(log_returns) * np.sqrt(252)`. -/
noncomputable def metricsVol (data : List PriceBar) : ℝ :=
  npStdSkipNa (logReturnsPy (closesR data)) * Real.sqrt 252

/-- Spec-side definition: the sequence of log-returns
`ln(close[i] / close[i-1])` for `i = 1 .. n-1`. -/
noncomputable def specLogReturns (cs : List ℝ) : List ℝ :=
  (cs.zip cs.tail).map (fun p => Real.log (p.2 / p.1))

/-- Spec-side definition: population standard deviation of the log-returns
multiplied by `√252`. -/
noncomputable def specAnnVol (cs : List ℝ) : ℝ :=
  popStd (specLogReturns cs) * Real.sqrt 252

/-- Python's `round(x, 4)` on the real volatility value, times `10^4`
(round-half-even; definable though not computable over `ℝ`). -/
noncomputable def roundToScaled4R (x : ℝ) : ℤ :=
  let f := Int.floor (x * 10000)
  let r := x * 10000 - (f : ℝ)
  if r < 1 / 2 then f
  else if 1 / 2 < r then f + 1
  else if f % 2 = 0 then f else f + 1

/-- Rendering of line 93's `{round(volatility, 4)}`. -/
noncomputable def renderRound4R (x : ℝ) : String :=
  decRender 10000 4 (roundToScaled4R x)

/-- Tool 1, `get_stock_price` (lines 13-37). The oracle `fetch` stands for
`yf.Ticker(ticker).history(period="1d")`; the whole body is inside
`try`/`except Exception`, so every raised exception becomes the error
string of line 37 and the function always returns a string. -/
def get_stock_price (fetch : String → Except PyExc (List PriceBar))
    (ticker : String) : String :=
  match fetch ticker with
  | Except.error e => "Error fetching data for " ++ ticker ++ ": " ++ e.msg
  | Except.ok data =>
    if data = [] then "No data available for ticker " ++ ticker ++ "."
    else
      "\nSymbol: " ++ ticker ++ "\nLatest Price: $" ++
        renderRound2 (ilocLast data).close ++ "\nVolume: " ++
        commaSep (ilocLast data).volume ++ "\nTimestamp: " ++
        tsStr (ilocLast data) ++ "\n"

/-- Tool 2, `get_historical_data` (lines 40-68). Dates are parsed before the
provider is called; the Python comment on line 65 sits inside the triple-quoted
f-string (PEP 701) and is therefore literal output text. -/
def get_historical_data
    (fetch : String → CalDate → CalDate → Except PyExc (List PriceBar))
    (now : CalDate) (ticker start_date : String) (end_date : Option String) :
    String :=
  match parseDate start_date with
  | Except.error e =>
    "Error fetching historical data for " ++ ticker ++ ": " ++ e.msg
  | Except.ok start =>
    match endResolve end_date now with
    | Except.error e =>
      "Error fetching historical data for " ++ ticker ++ ": " ++ e.msg
    | Except.ok endD =>
      match fetch ticker start endD with
      | Except.error e =>
        "Error fetching historical data for " ++ ticker ++ ": " ++ e.msg
      | Except.ok data =>
        if data = [] then
          "No data available for ticker " ++ ticker ++
            " in the specified date range."
        else
          "\nSymbol: " ++ ticker ++ "\nHistorical Data:\n" ++
            String.intercalate "\n" ((data.map rowRender).take 10) ++
            "  # Limited to 10 entries for brevity\n"

/-- Tool 3, `calculate_metrics` (lines 71-97). The oracle `fetch` stands for
`yf.Ticker(ticker).history(period=period)`. -/
noncomputable def calculate_metrics
    (fetch : String → String → Except PyExc (List PriceBar))
    (ticker period : String) : String :=
  match fetch ticker period with
  | Except.error e => "Error calculating metrics for " ++ ticker ++ ": " ++ e.msg
  | Except.ok data =>
    if data = [] then "No data available for ticker " ++ ticker ++ "."
    else
      "\nSymbol: " ++ ticker ++ "\n20-Day SMA: $" ++
        renderOptRound2 (metricsSma data) ++ "\nAnnualized Volatility: " ++
        renderRound4R (metricsVol data) ++ "\nTimestamp: " ++
        tsStr (ilocLast data) ++ "\n"

/-- The static resource `config://version` (lines 100-105). -/
def get_version : String := "1.3.0"

/-- Concrete bar used by concrete evaluations. -/
def wBar : PriceBar := mkBar 2024 1 2 100 7

/-- Concrete five-bar series (fewer than the 20-bar SMA window). -/
def wData5 : List PriceBar :=
  [mkBar 2024 1 2 100 5, mkBar 2024 1 3 101 5, mkBar 2024 1 4 102 5,
   mkBar 2024 1 5 103 5, mkBar 2024 1 8 104 5]

/-- Concrete eleven-bar series in ascending date order. -/
def wData11 : List PriceBar :=
  (List.range 11).map (fun i => mkBar 2024 1 (i + 1) (100 + i) 50)

/-- Concrete twenty-bar series. -/
def wData20 : List PriceBar :=
  (List.range 20).map (fun i => mkBar 2024 2 (i + 1) ((i : ℚ) + 1) 10)

/-- Concrete two-bar series with a price change. -/
def wData2 : List PriceBar := [mkBar 2024 1 2 100 5, mkBar 2024 1 3 110 5]

/-- Provider oracle returning a one-bar frame for every symbol. -/
def wFetchOne : String → Except PyExc (List PriceBar) := fun _ => Except.ok [wBar]

/-- Provider oracle returning an empty frame for every symbol. -/
def wFetchNil : String → Except PyExc (List PriceBar) := fun _ => Except.ok []

/-- History-range oracle returning the eleven-bar series. -/
def wFetchH11 : String → CalDate → CalDate → Except PyExc (List PriceBar) :=
  fun _ _ _ => Except.ok wData11

/-- History-range oracle returning an empty frame. -/
def wFetchHNil : String → CalDate → CalDate → Except PyExc (List PriceBar) :=
  fun _ _ _ => Except.ok []

/-- Period oracle returning the five-bar series. -/
def wFetchM5 : String → String → Except PyExc (List PriceBar) :=
  fun _ _ => Except.ok wData5

/-- A fixed "current date" for the optional end-date default. -/
def wNow : CalDate := ⟨2024, 6, 1⟩

theorem noNewline_append (a b : String) (ha : noNewline a) (hb : noNewline b) :
    noNewline (a ++ b) := by
  unfold noNewline at *
  rw [String.data_append]
  intro h
  rcases List.mem_append.mp h with h | h
  · exact ha h
  · exact hb h

theorem ne_of_headChar (p q s t : String) (c₁ c₂ : Char)
    (h₁ : p.data.head? = some c₁) (h₂ : q.data.head? = some c₂) (hc : c₁ ≠ c₂) :
    p ++ s ≠ q ++ t := by
  intro h
  apply hc
  have hd := congrArg String.data h
  rw [String.data_append, String.data_append] at hd
  have e1 : (p.data ++ s.data).head? = some c₁ := by
    cases hp : p.data with
    | nil => rw [hp] at h₁; exact absurd h₁ (by simp)
    | cons a u => rw [hp] at h₁; simpa using h₁
  have e2 : (q.data ++ t.data).head? = some c₂ := by
    cases hq : q.data with
    | nil => rw [hq] at h₂; exact absurd h₂ (by simp)
    | cons a u => rw [hq] at h₂; simpa using h₂
  rw [hd] at e1
  rw [e1] at e2
  exact Option.some.inj e2

theorem getLastD_concat_opt (l : List (Option ℚ)) (a d : Option ℚ) :
    (l ++ [a]).getLastD d = a := by
  rw [List.getLastD_eq_getLast?, List.getLast?_concat]
  rfl

theorem getLastD_range_map (n : ℕ) (f : ℕ → Option ℚ) (hn : 0 < n) :
    ((List.range n).map f).getLastD none = f (n - 1) := by
  obtain ⟨m, rfl⟩ : ∃ m, n = m + 1 := ⟨n - 1, by omega⟩
  rw [List.range_succ, List.map_append]
  simp only [List.map_cons, List.map_nil]
  rw [getLastD_concat_opt]
  simp

theorem smaLast_of_ge (xs : List ℚ) (h : 20 ≤ xs.length) :
    (rollingMeanSeries 20 xs).getLastD none = some (listMean (lastN 20 xs)) := by
  unfold rollingMeanSeries
  rw [getLastD_range_map _ _ (by omega)]
  unfold rollingMeanAt lastN
  rw [if_pos (by omega)]
  have h1 : xs.length - 1 + 1 = xs.length := by omega
  rw [h1, List.take_length]

theorem smaLast_of_lt (xs : List ℚ) (h0 : xs ≠ []) (h : xs.length < 20) :
    (rollingMeanSeries 20 xs).getLastD none = none := by
  unfold rollingMeanSeries
  rw [getLastD_range_map _ _ (List.length_pos.mpr h0)]
  unfold rollingMeanAt
  rw [if_neg (by omega)]

theorem sorted_take (l : List PriceBar) (hl : sortedByDate l = true) :
    ∀ n, sortedByDate (l.take n) = true := by
  induction l with
  | nil => intro n; simp [sortedByDate]
  | cons a t ih =>
    intro n
    cases n with
    | zero => simp [sortedByDate]
    | succ m =>
      cases t with
      | nil => simp [sortedByDate]
      | cons b t2 =>
        cases m with
        | zero => simp [sortedByDate]
        | succ k =>
          simp only [sortedByDate, Bool.and_eq_true] at hl
          have h2 := ih hl.2 (k + 1)
          simp only [List.take_succ_cons] at h2 ⊢
          simp only [sortedByDate, Bool.and_eq_true]
          exact ⟨hl.1, h2⟩

/-- Claim C1: for every price series with at least 20 daily bars, the 20-day
SMA computed by `calculate_metrics` (line 86) equals the arithmetic mean of
exactly the last 20 closing prices of that series. -/
theorem c1_sma_mean_of_last_twenty (data : List PriceBar) (h : 20 ≤ data.length) :
    metricsSma data = some (listMean (lastN 20 (data.map PriceBar.close))) ∧
      (lastN 20 (data.map PriceBar.close)).length = 20 := by
  constructor
  · unfold metricsSma
    exact smaLast_of_ge _ (by rw [List.length_map]; exact h)
  · unfold lastN
    rw [List.length_drop, List.length_map]
    omega

/-- Concrete instantiation of the C1 theorem on a constructed 20-bar series. -/
theorem c1_sma_mean_of_last_twenty_witness :
    metricsSma wData20 = some (listMean (lastN 20 (wData20.map PriceBar.close))) ∧
      (lastN 20 (wData20.map PriceBar.close)).length = 20 :=
  c1_sma_mean_of_last_twenty wData20 (by decide)

/-- Claim C2, counterexample: on a concrete five-bar series the metrics output
renders the absent SMA as the literal text `$nan` (the formatted NaN), and
that rendering does not contain the marker word `unavailable`. -/
theorem c2_nan_not_unavailable_counterexample :
    calculate_metrics wFetchM5 "T" "1y" =
      "\nSymbol: " ++ "T" ++ "\n20-Day SMA: $" ++
        renderOptRound2 (metricsSma wData5) ++ "\nAnnualized Volatility: " ++
        renderRound4R (metricsVol wData5) ++ "\nTimestamp: " ++
        tsStr (ilocLast wData5) ++ "\n" ∧
      renderOptRound2 (metricsSma wData5) = "nan" ∧
      containsStr ("20-Day SMA: $" ++ renderOptRound2 (metricsSma wData5))
        "unavailable" = false :=
  ⟨rfl, by decide, by decide⟩

/-- Claim C2, amended: for a fetched series with fewer than 20 bars the SMA is
the absent value (pandas' NaN, modelled as `none`), and the metrics output
renders it as `$nan` — the NaN value formatted into the f-string — rather than
an explicit `unavailable` marker. -/
theorem c2_amended_sma_rendered_nan
    (fetch : String → String → Except PyExc (List PriceBar))
    (ticker period : String) (data : List PriceBar)
    (hf : fetch ticker period = Except.ok data)
    (h0 : data ≠ []) (h20 : data.length < 20) :
    metricsSma data = none ∧
      calculate_metrics fetch ticker period =
        "\nSymbol: " ++ ticker ++ "\n20-Day SMA: $" ++ "nan" ++
          "\nAnnualized Volatility: " ++ renderRound4R (metricsVol data) ++
          "\nTimestamp: " ++ tsStr (ilocLast data) ++ "\n" := by
  have hs : metricsSma data = none := by
    unfold metricsSma
    apply smaLast_of_lt
    · simpa using h0
    · rw [List.length_map]; exact h20
  refine ⟨hs, ?_⟩
  simp only [calculate_metrics, hf, h0, if_false, hs, renderOptRound2]

/-- Concrete instantiation of the amended C2 theorem on the five-bar series. -/
theorem c2_amended_sma_rendered_nan_witness :
    metricsSma wData5 = none ∧
      calculate_metrics wFetchM5 "T" "1y" =
        "\nSymbol: " ++ "T" ++ "\n20-Day SMA: $" ++ "nan" ++
          "\nAnnualized Volatility: " ++ renderRound4R (metricsVol wData5) ++
          "\nTimestamp: " ++ tsStr (ilocLast wData5) ++ "\n" :=
  c2_amended_sma_rendered_nan wFetchM5 "T" "1y" wData5 rfl (by decide) (by decide)

theorem pairLogs_filterMap (p : ℝ) (cs : List ℝ) :
    (pairLogs p cs).filterMap id =
      ((p :: cs).zip cs).map (fun q => Real.log (q.2 / q.1)) := by
  induction cs generalizing p with
  | nil => rfl
  | cons x xs ih =>
    simp only [pairLogs, List.filterMap_cons, List.zip_cons_cons, List.map_cons, id]
    rw [ih]

/-- Claim C3: for every price series with at least 2 bars, the annualized
volatility computed by `calculate_metrics` (lines 87-88) equals the population
standard deviation of the log-returns `ln(close[i]/close[i-1])`, i = 1..n-1,
multiplied by √252. (`np.std` on the pandas Series delegates to
`Series.std(ddof=0)`, which skips the NaN that `shift(1)` introduced.) -/
theorem c3_volatility_is_annualized_popstd (data : List PriceBar)
    (h : 2 ≤ data.length) :
    metricsVol data = specAnnVol (closesR data) := by
  cases data with
  | nil => simp at h
  | cons b bs =>
    unfold metricsVol specAnnVol npStdSkipNa
    congr 2
    have hc : closesR (b :: bs) = ((b.close : ℚ) : ℝ) :: closesR bs := by
      unfold closesR
      rw [List.map_cons]
    rw [hc]
    simp only [logReturnsPy, specLogReturns, List.filterMap_cons, id]
    rw [pairLogs_filterMap]
    rfl

/-- Concrete instantiation of the C3 theorem on a constructed two-bar series. -/
theorem c3_volatility_is_annualized_popstd_witness :
    metricsVol wData2 = specAnnVol (closesR wData2) :=
  c3_volatility_is_annualized_popstd wData2 (by decide)

/-- Claim C4: on a two-bar series whose closes are [100, 100] the annualized
volatility computed by `calculate_metrics` is exactly 0 (the single log-return
is ln 1 = 0, its population standard deviation is 0). -/
theorem c4_flat_two_bars_zero_volatility :
    metricsVol [mkBar 2024 1 2 100 5, mkBar 2024 1 3 100 5] = 0 := by
  have hc : ((100 : ℚ) : ℝ) = 100 := by norm_num
  have hlog : Real.log (((100 : ℚ) : ℝ) / ((100 : ℚ) : ℝ)) = 0 := by
    rw [hc, div_self (by norm_num : (100 : ℝ) ≠ 0), Real.log_one]
  simp [metricsVol, npStdSkipNa, closesR, logReturnsPy, pairLogs, mkBar,
    popStd, meanR, hlog]

/-- Claim C5: for every fetched series with 11 or more rows, the historical
listing renders exactly the first 10 entries in ascending date order
(`formatted_data[:10]`, line 65), and the truncation is silent: the output on
the full series is identical to the output on its 10-row prefix, so nothing in
it depends on (or signals) the dropped rows. -/
theorem c5_first_ten_silent_truncation
    (fetch : String → CalDate → CalDate → Except PyExc (List PriceBar))
    (now fetchStart fetchEnd : CalDate) (ticker start_date : String)
    (end_date : Option String) (data : List PriceBar)
    (hs : parseDate start_date = Except.ok fetchStart)
    (he : endResolve end_date now = Except.ok fetchEnd)
    (hf : fetch ticker fetchStart fetchEnd = Except.ok data)
    (h11 : 11 ≤ data.length)
    (hsort : sortedByDate data = true) :
    get_historical_data fetch now ticker start_date end_date =
      get_historical_data (fun _ _ _ => Except.ok (data.take 10)) now ticker
        start_date end_date ∧
      (data.map rowRender).take 10 = (data.take 10).map rowRender ∧
      (data.take 10).length = 10 ∧
      sortedByDate (data.take 10) = true := by
  have hne : data ≠ [] := by
    intro hx
    rw [hx] at h11
    simp at h11
  have hne10 : data.take 10 ≠ [] :=
    List.length_pos.mp (by rw [List.length_take]; omega)
  refine ⟨?_, (List.map_take rowRender data 10).symm, ?_, sorted_take data hsort 10⟩
  · simp only [get_historical_data, hs, he, hf]
    rw [if_neg hne, if_neg hne10]
    rw [List.map_take, List.take_take, min_self]
  · rw [List.length_take]
    omega

/-- Concrete instantiation of the C5 theorem on a constructed 11-bar series. -/
theorem c5_first_ten_silent_truncation_witness :
    get_historical_data wFetchH11 wNow "AAPL" "2024-01-01" (some "2024-03-01") =
      get_historical_data (fun _ _ _ => Except.ok (wData11.take 10)) wNow "AAPL"
        "2024-01-01" (some "2024-03-01") ∧
      (wData11.map rowRender).take 10 = (wData11.take 10).map rowRender ∧
      (wData11.take 10).length = 10 ∧
      sortedByDate (wData11.take 10) = true :=
  c5_first_ten_silent_truncation wFetchH11 wNow ⟨2024, 1, 1⟩ ⟨2024, 3, 1⟩ "AAPL"
    "2024-01-01" (some "2024-03-01") wData11 rfl rfl rfl (by decide) (by decide)

/-- Claim C6: whenever any stage raises (an unparseable date before the fetch,
or a raised provider fetch on any of the three tools), the tool catches the
exception and returns the single-line error string of lines 37, 68 and 97,
embedding the symbol and the exception message; the embedded tools are total
functions into `String`, so nothing propagates. -/
theorem c6_uniform_error_strings (ticker period sdBad sdOk : String)
    (ed : Option String) (now d : CalDate) (e : PyExc)
    (fetchH : String → CalDate → CalDate → Except PyExc (List PriceBar))
    (hbad : parseDate sdBad = Except.error e)
    (hok : parseDate sdOk = Except.ok d)
    (ht : noNewline ticker) (hm : noNewline e.msg) :
    get_stock_price (fun _ => Except.error e) ticker =
      "Error fetching data for " ++ ticker ++ ": " ++ e.msg ∧
    get_historical_data fetchH now ticker sdBad ed =
      "Error fetching historical data for " ++ ticker ++ ": " ++ e.msg ∧
    get_historical_data (fun _ _ _ => Except.error e) now ticker sdOk none =
      "Error fetching historical data for " ++ ticker ++ ": " ++ e.msg ∧
    calculate_metrics (fun _ _ => Except.error e) ticker period =
      "Error calculating metrics for " ++ ticker ++ ": " ++ e.msg ∧
    noNewline (get_stock_price (fun _ => Except.error e) ticker) ∧
    noNewline (get_historical_data fetchH now ticker sdBad ed) ∧
    noNewline (calculate_metrics (fun _ _ => Except.error e) ticker period) := by
  have g1 : get_stock_price (fun _ => Except.error e) ticker =
      "Error fetching data for " ++ ticker ++ ": " ++ e.msg := by
    simp only [get_stock_price]
  have g2 : get_historical_data fetchH now ticker sdBad ed =
      "Error fetching historical data for " ++ ticker ++ ": " ++ e.msg := by
    simp only [get_historical_data, hbad]
  have g3 : get_historical_data (fun _ _ _ => Except.error e) now ticker sdOk none =
      "Error fetching historical data for " ++ ticker ++ ": " ++ e.msg := by
    simp only [get_historical_data, hok, endResolve]
  have g4 : calculate_metrics (fun _ _ => Except.error e) ticker period =
      "Error calculating metrics for " ++ ticker ++ ": " ++ e.msg := by
    simp only [calculate_metrics]
  refine ⟨g1, g2, g3, g4, ?_, ?_, ?_⟩
  · rw [g1]
    exact noNewline_append _ _
      (noNewline_append _ _ (noNewline_append _ _ (by decide) ht) (by decide)) hm
  · rw [g2]
    exact noNewline_append _ _
      (noNewline_append _ _ (noNewline_append _ _ (by decide) ht) (by decide)) hm
  · rw [g4]
    exact noNewline_append _ _
      (noNewline_append _ _ (noNewline_append _ _ (by decide) ht) (by decide)) hm

/-- Concrete instantiation of the C6 theorem: a symbol, a failing date parse,
a successful date parse, and a raised fetch. -/
theorem c6_uniform_error_strings_witness :
    get_stock_price
        (fun _ => Except.error ⟨"time data bad does not match format %Y-%m-%d"⟩)
        "AAPL" =
      "Error fetching data for " ++ "AAPL" ++ ": " ++
        "time data bad does not match format %Y-%m-%d" ∧
    get_historical_data wFetchH11 wNow "AAPL" "bad" none =
      "Error fetching historical data for " ++ "AAPL" ++ ": " ++
        "time data bad does not match format %Y-%m-%d" ∧
    get_historical_data
        (fun _ _ _ =>
          Except.error ⟨"time data bad does not match format %Y-%m-%d"⟩)
        wNow "AAPL" "2024-01-02" none =
      "Error fetching historical data for " ++ "AAPL" ++ ": " ++
        "time data bad does not match format %Y-%m-%d" ∧
    calculate_metrics
        (fun _ _ =>
          Except.error ⟨"time data bad does not match format %Y-%m-%d"⟩)
        "AAPL" "1y" =
      "Error calculating metrics for " ++ "AAPL" ++ ": " ++
        "time data bad does not match format %Y-%m-%d" ∧
    noNewline (get_stock_price
      (fun _ => Except.error ⟨"time data bad does not match format %Y-%m-%d"⟩)
      "AAPL") ∧
    noNewline (get_historical_data wFetchH11 wNow "AAPL" "bad" none) ∧
    noNewline (calculate_metrics
      (fun _ _ => Except.error ⟨"time data bad does not match format %Y-%m-%d"⟩)
      "AAPL" "1y") :=
  c6_uniform_error_strings "AAPL" "1y" "bad" "2024-01-02" none wNow ⟨2024, 1, 2⟩
    ⟨"time data bad does not match format %Y-%m-%d"⟩ wFetchH11 rfl rfl
    (by decide) (by decide)

/-- Claim C7: when the provider returns an empty series, each tool returns its
informational no-data string (lines 26, 57, 85), which is distinct from the
error-string form produced for any raised exception (it starts with
"No data ...", not "Error ..."). -/
theorem c7_empty_series_no_data_string (ticker period sd m : String)
    (d now : CalDate) (hok : parseDate sd = Except.ok d) :
    get_stock_price (fun _ => Except.ok []) ticker =
      "No data available for ticker " ++ ticker ++ "." ∧
    get_historical_data (fun _ _ _ => Except.ok []) now ticker sd none =
      "No data available for ticker " ++ ticker ++
        " in the specified date range." ∧
    calculate_metrics (fun _ _ => Except.ok []) ticker period =
      "No data available for ticker " ++ ticker ++ "." ∧
    get_stock_price (fun _ => Except.ok []) ticker ≠
      get_stock_price (fun _ => Except.error ⟨m⟩) ticker ∧
    get_historical_data (fun _ _ _ => Except.ok []) now ticker sd none ≠
      get_historical_data (fun _ _ _ => Except.error ⟨m⟩) now ticker sd none ∧
    calculate_metrics (fun _ _ => Except.ok []) ticker period ≠
      calculate_metrics (fun _ _ => Except.error ⟨m⟩) ticker period := by
  have g1 : get_stock_price (fun _ => Except.ok []) ticker =
      "No data available for ticker " ++ ticker ++ "." := by
    simp [get_stock_price]
  have g2 : get_historical_data (fun _ _ _ => Except.ok []) now ticker sd none =
      "No data available for ticker " ++ ticker ++
        " in the specified date range." := by
    simp [get_historical_data, hok, endResolve]
  have g3 : calculate_metrics (fun _ _ => Except.ok []) ticker period =
      "No data available for ticker " ++ ticker ++ "." := by
    simp [calculate_metrics]
  have e1 : get_stock_price (fun _ => Except.error (⟨m⟩ : PyExc)) ticker =
      "Error fetching data for " ++ ticker ++ ": " ++ m := by
    simp only [get_stock_price]
  have e2 : get_historical_data (fun _ _ _ => Except.error (⟨m⟩ : PyExc)) now
        ticker sd none =
      "Error fetching historical data for " ++ ticker ++ ": " ++ m := by
    simp only [get_historical_data, hok, endResolve]
  have e3 : calculate_metrics (fun _ _ => Except.error (⟨m⟩ : PyExc)) ticker
        period =
      "Error calculating metrics for " ++ ticker ++ ": " ++ m := by
    simp only [calculate_metrics]
  refine ⟨g1, g2, g3, ?_, ?_, ?_⟩
  · rw [g1, e1]
    rw [String.append_assoc "No data available for ticker " ticker "."]
    rw [String.append_assoc ("Error fetching data for " ++ ticker) ": " m]
    rw [String.append_assoc "Error fetching data for " ticker (": " ++ m)]
    exact ne_of_headChar _ _ _ _ 'N' 'E' (by decide) (by decide) (by decide)
  · rw [g2, e2]
    rw [String.append_assoc "No data available for ticker " ticker
      " in the specified date range."]
    rw [String.append_assoc ("Error fetching historical data for " ++ ticker)
      ": " m]
    rw [String.append_assoc "Error fetching historical data for " ticker
      (": " ++ m)]
    exact ne_of_headChar _ _ _ _ 'N' 'E' (by decide) (by decide) (by decide)
  · rw [g3, e3]
    rw [String.append_assoc "No data available for ticker " ticker "."]
    rw [String.append_assoc ("Error calculating metrics for " ++ ticker) ": " m]
    rw [String.append_assoc "Error calculating metrics for " ticker (": " ++ m)]
    exact ne_of_headChar _ _ _ _ 'N' 'E' (by decide) (by decide) (by decide)

/-- Concrete instantiation of the C7 theorem. -/
theorem c7_empty_series_no_data_string_witness :
    get_stock_price (fun _ => Except.ok []) "XYZ" =
      "No data available for ticker " ++ "XYZ" ++ "." ∧
    get_historical_data (fun _ _ _ => Except.ok []) wNow "XYZ" "2024-01-02" none =
      "No data available for ticker " ++ "XYZ" ++
        " in the specified date range." ∧
    calculate_metrics (fun _ _ => Except.ok []) "XYZ" "1y" =
      "No data available for ticker " ++ "XYZ" ++ "." ∧
    get_stock_price (fun _ => Except.ok []) "XYZ" ≠
      get_stock_price (fun _ => Except.error ⟨"boom"⟩) "XYZ" ∧
    get_historical_data (fun _ _ _ => Except.ok []) wNow "XYZ" "2024-01-02" none ≠
      get_historical_data (fun _ _ _ => Except.error ⟨"boom"⟩) wNow "XYZ"
        "2024-01-02" none ∧
    calculate_metrics (fun _ _ => Except.ok []) "XYZ" "1y" ≠
      calculate_metrics (fun _ _ => Except.error ⟨"boom"⟩) "XYZ" "1y" :=
  c7_empty_series_no_data_string "XYZ" "1y" "2024-01-02" "boom" ⟨2024, 1, 2⟩
    wNow rfl

/-- Claim C8, counterexample: with an empty symbol the output of
`get_stock_price` still depends on what the provider returns, so the empty
symbol does reach the provider as a fetch — no non-emptiness validation
exists in the code. -/
theorem c8_empty_symbol_reaches_provider :
    get_stock_price wFetchOne "" ≠ get_stock_price wFetchNil "" := by decide

/-- Claim C8, amended: `get_historical_data` parses its date strings before
delegating to the provider, so an unparseable start or end date never reaches
the provider (the output is independent of the fetch oracle); but no tool
validates that the symbol is non-empty — an empty symbol is passed through to
the provider (see the counterexample). -/
theorem c8_amended_dates_parsed_before_fetch
    (f g : String → CalDate → CalDate → Except PyExc (List PriceBar))
    (now : CalDate) (ticker sdBad sdOk : String) (edBad : Option String)
    (ed : Option String) (e eEnd : PyExc) (d : CalDate)
    (hbad : parseDate sdBad = Except.error e)
    (hok : parseDate sdOk = Except.ok d)
    (hend : endResolve edBad now = Except.error eEnd) :
    get_historical_data f now ticker sdBad ed =
      get_historical_data g now ticker sdBad ed ∧
    get_historical_data f now ticker sdOk edBad =
      get_historical_data g now ticker sdOk edBad := by
  constructor
  · simp only [get_historical_data, hbad]
  · simp only [get_historical_data, hok, hend]

/-- Concrete instantiation of the amended C8 theorem: an unparseable start
date and an unparseable end date, with two different fetch oracles. -/
theorem c8_amended_dates_parsed_before_fetch_witness :
    get_historical_data wFetchH11 wNow "AAPL" "bad" none =
      get_historical_data wFetchHNil wNow "AAPL" "bad" none ∧
    get_historical_data wFetchH11 wNow "AAPL" "2024-01-02" (some "nope") =
      get_historical_data wFetchHNil wNow "AAPL" "2024-01-02" (some "nope") :=
  c8_amended_dates_parsed_before_fetch wFetchH11 wFetchHNil wNow "AAPL" "bad"
    "2024-01-02" (some "nope") none
    ⟨"time data bad does not match format %Y-%m-%d"⟩
    ⟨"time data nope does not match format %Y-%m-%d"⟩ ⟨2024, 1, 2⟩ rfl rfl rfl

theorem roundToScaled_nonneg (s : ℕ) (q : ℚ) (h : 0 ≤ q) :
    0 ≤ roundToScaled s q := by
  have hf : 0 ≤ Int.fdiv (q.num * (s : ℤ)) (q.den : ℤ) :=
    Int.fdiv_nonneg (mul_nonneg (Rat.num_nonneg.mpr h) (Int.ofNat_nonneg s))
      (Int.ofNat_nonneg q.den)
  simp only [roundToScaled]
  split_ifs <;> omega

theorem fracRender2_len : ∀ k, k < 100 →
    1 ≤ (stripTrailZeros (padZeros 2 k)).length ∧
      (stripTrailZeros (padZeros 2 k)).length ≤ 2 := by decide

/-- Claim C9, counterexample: a close of 100.5 renders as `$100.5`, not
`$100.50` — `round(x, 2)` followed by f-string interpolation does not pad to
two decimal digits. -/
theorem c9_close_renders_without_padding :
    rowRender (mkBar 2024 1 2 (mkRat 201 2) 5) =
      "Date: 2024-01-02, Close: $100.5" ∧
    rowRender (mkBar 2024 1 2 (mkRat 201 2) 5) ≠
      "Date: 2024-01-02, Close: $100.50" :=
  ⟨by decide, by decide⟩

/-- Claim C9, amended: every rendered row has the shape
`Date: YYYY-MM-DD, Close: $V` where `V` is Python's default (shortest)
rendering of `round(close, 2)`: an integer part, a dot, and one or two
fractional digits with trailing zeros stripped — so `100.5` renders as
`$100.5` rather than `$100.50`. -/
theorem c9_amended_close_minimal_decimal (b : PriceBar) (h : 0 ≤ b.close) :
    rowRender b = "Date: " ++ dateStr b ++ ", Close: $" ++
        decRenderNat 100 2 (roundToScaled 100 b.close).toNat ∧
      decRenderNat 100 2 (roundToScaled 100 b.close).toNat =
        Nat.repr ((roundToScaled 100 b.close).toNat / 100) ++ "." ++
          fracRender 100 2 (roundToScaled 100 b.close).toNat ∧
      1 ≤ (fracRender 100 2 (roundToScaled 100 b.close).toNat).length ∧
      (fracRender 100 2 (roundToScaled 100 b.close).toNat).length ≤ 2 := by
  have hn : ¬(roundToScaled 100 b.close < 0) :=
    not_lt.mpr (roundToScaled_nonneg 100 b.close h)
  have hb := fracRender2_len ((roundToScaled 100 b.close).toNat % 100)
    (Nat.mod_lt _ (by norm_num))
  refine ⟨?_, rfl, hb.1, hb.2⟩
  unfold rowRender renderRound2 decRender
  rw [if_neg hn]

/-- Concrete instantiation of the amended C9 theorem on a close of 12.34. -/
theorem c9_amended_close_minimal_decimal_witness :
    rowRender (mkBar 2024 3 4 (mkRat 1234 100) 5) =
      "Date: " ++ dateStr (mkBar 2024 3 4 (mkRat 1234 100) 5) ++ ", Close: $" ++
        decRenderNat 100 2 (roundToScaled 100 (mkRat 1234 100)).toNat ∧
      decRenderNat 100 2 (roundToScaled 100 (mkRat 1234 100)).toNat =
        Nat.repr ((roundToScaled 100 (mkRat 1234 100)).toNat / 100) ++ "." ++
          fracRender 100 2 (roundToScaled 100 (mkRat 1234 100)).toNat ∧
      1 ≤ (fracRender 100 2 (roundToScaled 100 (mkRat 1234 100)).toNat).length ∧
      (fracRender 100 2 (roundToScaled 100 (mkRat 1234 100)).toNat).length ≤ 2 :=
  c9_amended_close_minimal_decimal (mkBar 2024 3 4 (mkRat 1234 100) 5) (by decide)

/-- Claim C10: for every non-empty fetched series the successful output of
`get_historical_data` ends, right after the listed entries on the same line,
with the literal text `  # Limited to 10 entries for brevity` and a final
newline — the Python comment on line 65 sits inside the triple-quoted f-string
(valid under PEP 701) and is therefore part of the returned string. -/
theorem c10_literal_comment_in_output
    (fetch : String → CalDate → CalDate → Except PyExc (List PriceBar))
    (now fetchStart fetchEnd : CalDate) (ticker start_date : String)
    (end_date : Option String) (data : List PriceBar)
    (hs : parseDate start_date = Except.ok fetchStart)
    (he : endResolve end_date now = Except.ok fetchEnd)
    (hf : fetch ticker fetchStart fetchEnd = Except.ok data)
    (h0 : data ≠ []) :
    get_historical_data fetch now ticker start_date end_date =
      ("\nSymbol: " ++ ticker ++ "\nHistorical Data:\n" ++
        String.intercalate "\n" ((data.map rowRender).take 10)) ++
        "  # Limited to 10 entries for brevity\n" := by
  simp only [get_historical_data, hs, he, hf]
  rw [if_neg h0]

/-- Concrete instantiation of the C10 theorem on the 11-bar series. -/
theorem c10_literal_comment_in_output_witness :
    get_historical_data wFetchH11 wNow "AAPL" "2024-01-01" (some "2024-03-01") =
      ("\nSymbol: " ++ "AAPL" ++ "\nHistorical Data:\n" ++
        String.intercalate "\n" ((wData11.map rowRender).take 10)) ++
        "  # Limited to 10 entries for brevity\n" :=
  c10_literal_comment_in_output wFetchH11 wNow ⟨2024, 1, 1⟩ ⟨2024, 3, 1⟩ "AAPL"
    "2024-01-01" (some "2024-03-01") wData11 rfl rfl rfl (by decide)
